import Mathlib

/-!
Verification of the metrics-collection/classification pipeline
(`src/appdynamics_metrics.py`, `src/demo_metrics_data.py`) and the
user-journey simulator (`src/load-generator/scripts/realistic_load_test.py`).

Modelling conventions:
* Python numbers (the metric values) are embedded as rationals (`ℚ`);
  decimal literals such as `45.3` are written `453 / 10`.
* A Python `round(x, 2)` (round half to even) is `pyRound2`.
* HTTP traffic is abstracted by oracles: each query's outcome (a raised
  exception, or a status code with a parsed body) is an input, and the
  functions under verification are translated on top of those inputs.
* Logging and tracing spans are external effects; the log lines and span
  attributes that the code emits on its decision paths are returned as data
  so that theorems can speak about them.
-/

/-! ## Embedding of `src/appdynamics_metrics.py` -/

/-- The metrics record built by `AppDynamicsAPI.get_application_metrics`
(the `metrics_data` dict). -/
structure MetricsData where
  application_name : String
  application_id : Int
  calls_per_minute : ℚ
  average_response_time : ℚ
  errors_per_minute : ℚ
  error_percentage : ℚ
  health_status : String
  timestamp : String
deriving DecidableEq, Repr

/-- Whether `sub` occurs as a contiguous run inside `s` (helper for
`containsSub`). -/
def isSub (sub : List Char) : List Char → Bool
  | [] => sub.isPrefixOf []
  | c :: rest => sub.isPrefixOf (c :: rest) || isSub sub rest

/-- Python's substring test `sub in s`. -/
def containsSub (s sub : String) : Bool := isSub sub.toList s.toList

/-- Python's `round(q, 2)`: scale by 100, round half to even, scale back. -/
def pyRound2 (q : ℚ) : ℚ :=
  let scaled := q * 100
  let fl := ⌊scaled⌋
  let frac := scaled - (fl : ℚ)
  let n : ℤ :=
    if frac > 1 / 2 then fl + 1
    else if frac < 1 / 2 then fl
    else if fl % 2 = 0 then fl else fl + 1
  (n : ℚ) / 100

/-- `AppDynamicsAPI._determine_health_status`: derives the health label from
the `error_percentage`, `average_response_time` and `calls_per_minute` entries
of the metrics record.  (The source's `except` branch returning `"Unknown"`
guards dictionary access, which cannot fail on this record type.) -/
def determine_health_status (metrics : MetricsData) : String :=
  if metrics.error_percentage > 5 ∨ metrics.average_response_time > 5000 then "Critical"
  else if metrics.error_percentage > 1 ∨ metrics.average_response_time > 2000 then "Warning"
  else if metrics.calls_per_minute > 0 then "Healthy"
  else "No Traffic"

/-- The fixed metric paths queried by `get_application_metrics`. -/
def metric_paths : List String :=
  ["Application Infrastructure Performance|*|Calls per Minute",
   "Application Infrastructure Performance|*|Average Response Time (ms)",
   "Application Infrastructure Performance|*|Errors per Minute"]

/-- Outcome of one metric-path HTTP query: the request raised, or returned a
status code with the parsed JSON body (each metric's `metricValues` value
list). -/
inductive QueryOutcome where
  | raised : QueryOutcome
  | response : Nat → List (List ℚ) → QueryOutcome
deriving DecidableEq

/-- The per-metric assignment inside `_process_metric_data`'s loop: routes the
latest value to the field selected by substring tests on the metric path. -/
def assign_latest (metric_path : String) (latest : ℚ) (res : MetricsData) : MetricsData :=
  if containsSub metric_path "Calls per Minute" then
    { res with calls_per_minute := pyRound2 latest }
  else if containsSub metric_path "Average Response Time" then
    { res with average_response_time := pyRound2 latest }
  else if containsSub metric_path "Errors per Minute" then
    { res with errors_per_minute := pyRound2 latest }
  else res

/-- `AppDynamicsAPI._process_metric_data`: for each metric in the response
with a non-empty `metricValues`, store the rounded latest value. -/
def process_metric_data : List (List ℚ) → String → MetricsData → MetricsData
  | [], _, result => result
  | values :: rest, metric_path, result =>
    match values.getLast? with
    | none => process_metric_data rest metric_path result
    | some latest => process_metric_data rest metric_path (assign_latest metric_path latest result)

/-- The zero-initialised record `get_application_metrics` starts from. -/
def init_metrics (app_id : Int) (app_name timestamp : String) : MetricsData :=
  { application_name := app_name
    application_id := app_id
    calls_per_minute := 0
    average_response_time := 0
    errors_per_minute := 0
    error_percentage := 0
    health_status := "Unknown"
    timestamp := timestamp }

/-- The warning line logged when one metric path's query raises. -/
def failed_log (metric_path app_name : String) : String :=
  "Failed to retrieve " ++ metric_path ++ " for " ++ app_name

/-- One iteration of the metric-path loop in `get_application_metrics`: a
raised query is logged and skipped (`continue`), a 200 response is processed,
any other status is ignored. -/
def fetch_step (app_name : String) (oracle : String → QueryOutcome)
    (acc : MetricsData × List String) (metric_path : String) : MetricsData × List String :=
  match oracle metric_path with
  | QueryOutcome.raised => (acc.1, acc.2 ++ [failed_log metric_path app_name])
  | QueryOutcome.response code body =>
      if code = 200 then (process_metric_data body metric_path acc.1, acc.2) else acc

/-- The derived-metrics statement of `get_application_metrics`: when
`calls_per_minute > 0`, set `error_percentage` to the rounded error ratio. -/
def apply_error_pct (m : MetricsData) : MetricsData :=
  if m.calls_per_minute > 0 then
    { m with error_percentage := pyRound2 (m.errors_per_minute / m.calls_per_minute * 100) }
  else m

/-- The classification statement of `get_application_metrics`: store the
health label derived from the record. -/
def apply_health (m : MetricsData) : MetricsData :=
  { m with health_status := determine_health_status m }

/-- `AppDynamicsAPI.get_application_metrics`: query the three metric paths
independently, derive `error_percentage`, classify, and return the record
together with the warnings logged along the way. -/
def get_application_metrics (app_id : Int) (app_name timestamp : String)
    (oracle : String → QueryOutcome) : MetricsData × List String :=
  let looped := metric_paths.foldl (fetch_step app_name oracle)
    (init_metrics app_id app_name timestamp, [])
  (apply_health (apply_error_pct looped.1), looped.2)

/-- The latest rounded value a processing pass over `body` leaves in a field
that started at `init`. -/
def latest_rounded : List (List ℚ) → ℚ → ℚ
  | [], init => init
  | values :: rest, init =>
    match values.getLast? with
    | none => latest_rounded rest init
    | some latest => latest_rounded rest (pyRound2 latest)

/-- The value one metric path contributes to its field: 0 when the query
raised or returned a non-200 status, otherwise the latest rounded value of the
body (0 when the body holds no values). -/
def path_field_value (outcome : QueryOutcome) : ℚ :=
  match outcome with
  | QueryOutcome.raised => 0
  | QueryOutcome.response code body => if code = 200 then latest_rounded body 0 else 0

/-- Whether a query outcome is a raised exception. -/
def raised_b (o : QueryOutcome) : Bool :=
  match o with
  | QueryOutcome.raised => true
  | QueryOutcome.response _ _ => false

/-- The record the metric-path loop produces, field by field. -/
def loop_model (app_id : Int) (app_name timestamp : String)
    (oracle : String → QueryOutcome) : MetricsData :=
  { application_name := app_name
    application_id := app_id
    calls_per_minute := path_field_value (oracle (metric_paths.getD 0 ""))
    average_response_time := path_field_value (oracle (metric_paths.getD 1 ""))
    errors_per_minute := path_field_value (oracle (metric_paths.getD 2 ""))
    error_percentage := 0
    health_status := "Unknown"
    timestamp := timestamp }

/-- An application entry (`app['id']`, `app['name']`) as consumed by
`collect_metrics_threaded`. -/
structure AppEntry where
  id : Int
  name : String
deriving DecidableEq, Repr

/-- `collect_metrics_threaded`: every application's fetch appends exactly one
record to the shared results list (the per-thread `except` branch is
unreachable because `get_application_metrics` catches its own errors); the
bounded thread batches are sequentialised. -/
def collect_metrics_threaded (apps : List AppEntry) (timestamp : String)
    (oracle : AppEntry → String → QueryOutcome) : List MetricsData :=
  apps.map fun app => (get_application_metrics app.id app.name timestamp (oracle app)).1

/-- The all-defaults record a completely failed fetch yields, after
classification. -/
def zero_sample (app : AppEntry) (timestamp : String) : MetricsData :=
  { application_name := app.name
    application_id := app.id
    calls_per_minute := 0
    average_response_time := 0
    errors_per_minute := 0
    error_percentage := 0
    health_status := "No Traffic"
    timestamp := timestamp }

/-- `generate_demo_metrics` from `src/demo_metrics_data.py`: the six
hard-coded records (timestamps are `datetime.now()`, taken as a parameter). -/
def generate_demo_metrics (timestamp : String) : List MetricsData :=
  [{ application_name := "User-Service", application_id := 1001,
     calls_per_minute := 453 / 10, average_response_time := 1205 / 10,
     errors_per_minute := 8 / 10, error_percentage := 177 / 100,
     health_status := "Healthy", timestamp := timestamp },
   { application_name := "Product-Service", application_id := 1002,
     calls_per_minute := 789 / 10, average_response_time := 952 / 10,
     errors_per_minute := 21 / 10, error_percentage := 266 / 100,
     health_status := "Warning", timestamp := timestamp },
   { application_name := "Cart-Service", application_id := 1003,
     calls_per_minute := 346 / 10, average_response_time := 853 / 10,
     errors_per_minute := 3 / 10, error_percentage := 87 / 100,
     health_status := "Healthy", timestamp := timestamp },
   { application_name := "Order-Service", application_id := 1004,
     calls_per_minute := 237 / 10, average_response_time := 1804 / 10,
     errors_per_minute := 5 / 10, error_percentage := 211 / 100,
     health_status := "Healthy", timestamp := timestamp },
   { application_name := "API-Gateway", application_id := 1005,
     calls_per_minute := 1568 / 10, average_response_time := 457 / 10,
     errors_per_minute := 82 / 10, error_percentage := 523 / 100,
     health_status := "Critical", timestamp := timestamp },
   { application_name := "Frontend-Service", application_id := 1006,
     calls_per_minute := 892 / 10, average_response_time := 678 / 10,
     errors_per_minute := 14 / 10, error_percentage := 157 / 100,
     health_status := "Healthy", timestamp := timestamp }]

/-- A metrics record carrying just the classifier's three inputs, for stating
concrete classifier examples. -/
def sample_of (err_pct resp_time calls : ℚ) : MetricsData :=
  { application_name := ""
    application_id := 0
    calls_per_minute := calls
    average_response_time := resp_time
    errors_per_minute := 0
    error_percentage := err_pct
    health_status := "Unknown"
    timestamp := "" }

/-! ## Embedding of `src/load-generator/scripts/realistic_load_test.py` -/

/-- `UserProfile` from the load generator. -/
structure UserProfile where
  user_id : String
  email : String
  name : String
  age : Nat
  location : String
  shopping_frequency : String
  preferred_categories : List String
  price_sensitivity : ℚ
  device_type : String

/-- `UserJourney.JOURNEY_PATTERNS`: pattern name, weight, step sequence. -/
def JOURNEY_PATTERNS : List (String × Nat × List String) :=
  [("browser", 40,
    ["homepage", "browse_products", "view_product", "exit"]),
   ("quick_shopper", 25,
    ["homepage", "search_product", "view_product", "add_to_cart", "checkout"]),
   ("comparison_shopper", 20,
    ["homepage", "browse_products", "view_product", "browse_products",
     "view_product", "add_to_cart", "view_cart", "continue_shopping",
     "view_product", "add_to_cart", "checkout"]),
   ("returning_user", 10,
    ["login", "view_orders", "browse_products", "view_product", "add_to_cart", "checkout"]),
   ("cart_abandoner", 5,
    ["homepage", "browse_products", "view_product", "add_to_cart", "view_cart", "exit"])]

/-- Cumulative-weight selection as performed by `random.choices`: walk the
table, at each entry selecting it when the draw falls under its weight. -/
def pick_weighted (table : List (String × Nat × List String)) (r : Nat) :
    Option (String × Nat × List String) :=
  match table with
  | [] => none
  | entry :: rest => if r < entry.2.1 then some entry else pick_weighted rest (r - entry.2.1)

/-- `UserJourney.get_random_journey`: weighted random choice of one pattern's
step list.  The randomness source's outcome is the draw `r`, reduced into the
total-weight range exactly as `random.choices` draws from `[0, total)`. -/
def get_random_journey (r : Nat) : List String :=
  match pick_weighted JOURNEY_PATTERNS (r % 100) with
  | some entry => entry.2.2
  | none => []

/-- One `cart_items` entry (`{"productId": ..., "quantity": ...}`). -/
structure CartItem where
  productId : Nat
  quantity : Nat
deriving DecidableEq, Repr

/-- `self.session_data` of `RealisticEcommerceUser` (the session-start
timestamp is kept abstract as a natural number). -/
structure SessionData where
  cart_items : List CartItem
  viewed_products : List Nat
  session_start : Nat
  auth_token : Option String
deriving DecidableEq, Repr

/-- The `session_data` dict built in `on_start`. -/
def initial_session_data (start : Nat) : SessionData :=
  { cart_items := [], viewed_products := [], session_start := start, auth_token := none }

/-- Bodies of the POST requests the step handlers issue. -/
inductive ReqBody where
  | loginCreds : String → ReqBody
  | registerInfo : String → ReqBody
  | cartAdd : Nat → Nat → ReqBody
  | checkoutInfo : ReqBody
deriving DecidableEq, Repr

/-- An HTTP request issued by a step handler. -/
inductive Request where
  | get : String → Request
  | post : String → ReqBody → Request
deriving DecidableEq, Repr

/-- Per-step environment: the HTTP client's behaviour and the randomness
drawn by the step.  `status r = none` models the call raising an exception;
`retry_status` answers the repeated login issued after a registration;
`token_json = none` models `response.json()` raising, `some t` a parsed body
whose `token` field is `t`. -/
structure Env where
  status : Request → Option Nat
  retry_status : Option Nat
  token_json : Option (Option String)
  coin : Bool
  seedA : Nat
  seedB : Nat
  seedC : Nat

/-- Result of running one step handler: the session state after its
mutations, the HTTP requests it issued in order, the decision-relevant span
attributes it set, and whether it ended by raising. -/
structure StepOut where
  state : SessionData
  calls : List Request
  attrs : List (String × String)
  raised : Bool
deriving Repr

/-- `visit_homepage`: GET `/`; no session-state change. -/
def visit_homepage (env : Env) (s : SessionData) : StepOut :=
  match env.status (Request.get "/") with
  | none => ⟨s, [Request.get "/"], [], true⟩
  | some _ => ⟨s, [Request.get "/"], [], false⟩

/-- `register_user`: POST the registration form; no session-state change. -/
def register_user (profile : UserProfile) (env : Env) (s : SessionData) : StepOut :=
  match env.status (Request.post "/user-service/api/users/register"
      (ReqBody.registerInfo profile.email)) with
  | none => ⟨s, [Request.post "/user-service/api/users/register"
      (ReqBody.registerInfo profile.email)], [], true⟩
  | some _ => ⟨s, [Request.post "/user-service/api/users/register"
      (ReqBody.registerInfo profile.email)], [], false⟩

/-- The state update on a 200 login response: store the parsed token (a
failed `response.json()` parse leaves the state untouched). -/
def store_token (env : Env) (s : SessionData) (code : Nat) : SessionData :=
  if code = 200 then
    match env.token_json with
    | none => s
    | some t => { s with auth_token := t }
  else s

/-- `login_user`: POST the credentials; on 401 register and retry the login;
on a 200 final response store the token. -/
def login_user (profile : UserProfile) (env : Env) (s : SessionData) : StepOut :=
  let req := Request.post "/user-service/api/users/login" (ReqBody.loginCreds profile.email)
  match env.status req with
  | none => ⟨s, [req], [], true⟩
  | some code0 =>
    if code0 = 401 then
      let regOut := register_user profile env s
      if regOut.raised then ⟨regOut.state, req :: regOut.calls, regOut.attrs, true⟩
      else
        match env.retry_status with
        | none => ⟨regOut.state, req :: (regOut.calls ++ [req]), regOut.attrs, true⟩
        | some code1 =>
          ⟨store_token env regOut.state code1, req :: (regOut.calls ++ [req]),
            regOut.attrs, false⟩
    else ⟨store_token env s code0, [req], [], false⟩

/-- `browse_products`: GET the catalog, filtered by a preferred category when
the 70%-probability draw (`env.coin`) hits and preferences exist. -/
def browse_products (profile : UserProfile) (env : Env) (s : SessionData) : StepOut :=
  let url :=
    if env.coin && !profile.preferred_categories.isEmpty then
      "/product-service/api/products?category=" ++
        profile.preferred_categories.getD
          (env.seedA % profile.preferred_categories.length) ""
    else "/product-service/api/products"
  match env.status (Request.get url) with
  | none => ⟨s, [Request.get url], [], true⟩
  | some _ => ⟨s, [Request.get url], [], false⟩

/-- The fixed search vocabulary of `search_products`. -/
def search_terms : List String :=
  ["laptop", "smartphone", "headphones", "book", "dress",
   "shoes", "watch", "camera", "tablet", "backpack"]

/-- `search_products`: GET the search endpoint with one random term. -/
def search_products (env : Env) (s : SessionData) : StepOut :=
  let q := search_terms.getD (env.seedA % search_terms.length) ""
  match env.status (Request.get ("/product-service/api/products/search?q=" ++ q)) with
  | none => ⟨s, [Request.get ("/product-service/api/products/search?q=" ++ q)], [], true⟩
  | some _ => ⟨s, [Request.get ("/product-service/api/products/search?q=" ++ q)], [], false⟩

/-- `view_product`: GET a random product id in `[1, 100]`; on a 200 response
append the id to `viewed_products`. -/
def view_product (env : Env) (s : SessionData) : StepOut :=
  let product_id := 1 + env.seedA % 100
  let req := Request.get ("/product-service/api/products/" ++ toString product_id)
  match env.status req with
  | none => ⟨s, [req], [], true⟩
  | some code =>
    if code = 200 then
      ⟨{ s with viewed_products := s.viewed_products ++ [product_id] }, [req], [], false⟩
    else ⟨s, [req], [], false⟩

/-- `add_to_cart`: view a product first when nothing has been viewed, then
POST a random viewed product with quantity in `[1, 3]`; on 200/201 append the
item to `cart_items`. -/
def add_to_cart (env : Env) (s : SessionData) : StepOut :=
  let pre := if s.viewed_products.isEmpty then view_product env s else ⟨s, [], [], false⟩
  if pre.raised then pre
  else if pre.state.viewed_products.isEmpty then
    ⟨pre.state, pre.calls, pre.attrs, false⟩
  else
    let product_id := pre.state.viewed_products.getD
      (env.seedB % pre.state.viewed_products.length) 0
    let quantity := 1 + env.seedC % 3
    let req := Request.post "/cart-service/api/cart/add" (ReqBody.cartAdd product_id quantity)
    match env.status req with
    | none => ⟨pre.state, pre.calls ++ [req], pre.attrs, true⟩
    | some code =>
      if code = 200 ∨ code = 201 then
        ⟨{ pre.state with cart_items := pre.state.cart_items ++ [⟨product_id, quantity⟩] },
          pre.calls ++ [req], pre.attrs, false⟩
      else ⟨pre.state, pre.calls ++ [req], pre.attrs, false⟩

/-- `view_cart`: GET the cart; no session-state change. -/
def view_cart (env : Env) (s : SessionData) : StepOut :=
  match env.status (Request.get "/cart-service/api/cart") with
  | none => ⟨s, [Request.get "/cart-service/api/cart"], [], true⟩
  | some _ => ⟨s, [Request.get "/cart-service/api/cart"], [], false⟩

/-- `checkout`: with an empty cart mark the abandonment and return without a
call; otherwise POST the checkout and clear `cart_items` on 200/201. -/
def checkout (env : Env) (s : SessionData) : StepOut :=
  if s.cart_items.isEmpty then
    ⟨s, [], [("checkout.abandoned", "True"), ("checkout.reason", "empty_cart")], false⟩
  else
    let req := Request.post "/order-service/api/orders/checkout" ReqBody.checkoutInfo
    match env.status req with
    | none => ⟨s, [req], [], true⟩
    | some code =>
      if code = 200 ∨ code = 201 then
        ⟨{ s with cart_items := [] }, [req], [("checkout.success", "True")], false⟩
      else ⟨s, [req], [("checkout.success", "False")], false⟩

/-- `view_orders`: GET the order history; no session-state change. -/
def view_orders (env : Env) (s : SessionData) : StepOut :=
  match env.status (Request.get "/order-service/api/orders") with
  | none => ⟨s, [Request.get "/order-service/api/orders"], [], true⟩
  | some _ => ⟨s, [Request.get "/order-service/api/orders"], [], false⟩

/-- `execute_step`: dispatch on the step name (`continue_shopping` re-invokes
`browse_products`; `exit` and unknown names fall through with no action). -/
def execute_step (profile : UserProfile) (env : Env) (step : String)
    (s : SessionData) : StepOut :=
  if step = "homepage" then visit_homepage env s
  else if step = "login" then login_user profile env s
  else if step = "browse_products" then browse_products profile env s
  else if step = "search_product" then search_products env s
  else if step = "view_product" then view_product env s
  else if step = "add_to_cart" then add_to_cart env s
  else if step = "view_cart" then view_cart env s
  else if step = "checkout" then checkout env s
  else if step = "view_orders" then view_orders env s
  else if step = "continue_shopping" then browse_products profile env s
  else ⟨s, [], [], false⟩

/-- Result of `execute_user_journey`: the final session state, the steps
actually attempted (each with whether it raised), and whether an exception was
recorded on the journey span. -/
structure JourneyOut where
  state : SessionData
  attempted : List (String × Bool)
  exception_recorded : Bool
deriving Repr

/-- The step loop of `execute_user_journey`: run each step in order; a step
that raises is recorded on the journey span and breaks out of the loop. -/
def run_steps (profile : UserProfile) (envs : Nat → Env) :
    List String → Nat → SessionData → JourneyOut
  | [], _, s => ⟨s, [], false⟩
  | step :: rest, i, s =>
    let out := execute_step profile (envs i) step s
    if out.raised then ⟨out.state, [(step, true)], true⟩
    else
      let tail := run_steps profile envs rest (i + 1) out.state
      ⟨tail.state, (step, false) :: tail.attempted, tail.exception_recorded⟩

/-- `execute_user_journey` on a given step sequence (journey selection itself
is `get_random_journey`). -/
def execute_user_journey (profile : UserProfile) (envs : Nat → Env)
    (journey : List String) (s : SessionData) : JourneyOut :=
  run_steps profile envs journey 0 s

/-- The session loop: the user's scheduled journey executions in order.
Returns the final state and how many journey executions ran. -/
def run_session (profile : UserProfile) :
    List (List String × (Nat → Env)) → SessionData → SessionData × Nat
  | [], s => (s, 0)
  | (journey, envs) :: rest, s =>
    let out := execute_user_journey profile envs journey s
    let res := run_session profile rest out.state
    (res.1, res.2 + 1)

/-- The cart/viewed-products invariant: every cart entry has quantity in
`[1, 3]` and a product id that has been viewed. -/
def CartInv (s : SessionData) : Prop :=
  ∀ it ∈ s.cart_items, 1 ≤ it.quantity ∧ it.quantity ≤ 3 ∧ it.productId ∈ s.viewed_products

/-! ## Lemmas about the metrics pipeline -/

/-- The classifier ignores every field except the three threshold inputs. -/
theorem determine_health_status_congr (m m2 : MetricsData)
    (he : m.error_percentage = m2.error_percentage)
    (ha : m.average_response_time = m2.average_response_time)
    (hc : m.calls_per_minute = m2.calls_per_minute) :
    determine_health_status m = determine_health_status m2 := by
  simp only [determine_health_status, he, ha, hc]

theorem assign_latest_path0 (v : ℚ) (m : MetricsData) :
    assign_latest "Application Infrastructure Performance|*|Calls per Minute" v m =
      { m with calls_per_minute := pyRound2 v } := by
  have h : containsSub "Application Infrastructure Performance|*|Calls per Minute"
      "Calls per Minute" = true := by decide
  simp [assign_latest, h]

theorem assign_latest_path1 (v : ℚ) (m : MetricsData) :
    assign_latest "Application Infrastructure Performance|*|Average Response Time (ms)" v m =
      { m with average_response_time := pyRound2 v } := by
  have h0 : containsSub "Application Infrastructure Performance|*|Average Response Time (ms)"
      "Calls per Minute" = false := by decide
  have h1 : containsSub "Application Infrastructure Performance|*|Average Response Time (ms)"
      "Average Response Time" = true := by decide
  simp [assign_latest, h0, h1]

theorem assign_latest_path2 (v : ℚ) (m : MetricsData) :
    assign_latest "Application Infrastructure Performance|*|Errors per Minute" v m =
      { m with errors_per_minute := pyRound2 v } := by
  have h0 : containsSub "Application Infrastructure Performance|*|Errors per Minute"
      "Calls per Minute" = false := by decide
  have h1 : containsSub "Application Infrastructure Performance|*|Errors per Minute"
      "Average Response Time" = false := by decide
  have h2 : containsSub "Application Infrastructure Performance|*|Errors per Minute"
      "Errors per Minute" = true := by decide
  simp [assign_latest, h0, h1, h2]

theorem process_path0 (body : List (List ℚ)) (m : MetricsData) :
    process_metric_data body "Application Infrastructure Performance|*|Calls per Minute" m =
      { m with calls_per_minute := latest_rounded body m.calls_per_minute } := by
  induction body generalizing m with
  | nil => simp [process_metric_data, latest_rounded]
  | cons values rest ih =>
    cases h : values.getLast? with
    | none => simp [process_metric_data, latest_rounded, h, ih]
    | some v => simp [process_metric_data, latest_rounded, h, assign_latest_path0, ih]

theorem process_path1 (body : List (List ℚ)) (m : MetricsData) :
    process_metric_data body
        "Application Infrastructure Performance|*|Average Response Time (ms)" m =
      { m with average_response_time := latest_rounded body m.average_response_time } := by
  induction body generalizing m with
  | nil => simp [process_metric_data, latest_rounded]
  | cons values rest ih =>
    cases h : values.getLast? with
    | none => simp [process_metric_data, latest_rounded, h, ih]
    | some v => simp [process_metric_data, latest_rounded, h, assign_latest_path1, ih]

theorem process_path2 (body : List (List ℚ)) (m : MetricsData) :
    process_metric_data body "Application Infrastructure Performance|*|Errors per Minute" m =
      { m with errors_per_minute := latest_rounded body m.errors_per_minute } := by
  induction body generalizing m with
  | nil => simp [process_metric_data, latest_rounded]
  | cons values rest ih =>
    cases h : values.getLast? with
    | none => simp [process_metric_data, latest_rounded, h, ih]
    | some v => simp [process_metric_data, latest_rounded, h, assign_latest_path2, ih]

/-- The metric-path loop of `get_application_metrics`, characterised: each
field of the record is determined by its own metric path's outcome alone, and
the log holds one warning per raised query. -/
theorem fetch_loop_eq (app_id : Int) (app_name ts : String)
    (oracle : String → QueryOutcome) :
    metric_paths.foldl (fetch_step app_name oracle) (init_metrics app_id app_name ts, []) =
      (loop_model app_id app_name ts oracle,
        (metric_paths.filter fun p => raised_b (oracle p)).map
          fun p => failed_log p app_name) := by
  rcases h0 : oracle "Application Infrastructure Performance|*|Calls per Minute"
    with _ | ⟨c0, b0⟩ <;>
  rcases h1 : oracle "Application Infrastructure Performance|*|Average Response Time (ms)"
    with _ | ⟨c1, b1⟩ <;>
  rcases h2 : oracle "Application Infrastructure Performance|*|Errors per Minute"
    with _ | ⟨c2, b2⟩ <;>
  simp [metric_paths, fetch_step, h0, h1, h2, loop_model, path_field_value, raised_b,
    init_metrics, process_path0, process_path1, process_path2] <;>
  split_ifs <;>
  simp [process_path0, process_path1, process_path2, init_metrics]

/-- The record `get_application_metrics` returns, assembled field by field
from the per-path outcomes. -/
def fetch_model (app_id : Int) (app_name ts : String)
    (oracle : String → QueryOutcome) : MetricsData :=
  apply_health (apply_error_pct (loop_model app_id app_name ts oracle))

/-- Full characterisation of `get_application_metrics`. -/
theorem get_application_metrics_eq (app_id : Int) (app_name ts : String)
    (oracle : String → QueryOutcome) :
    get_application_metrics app_id app_name ts oracle =
      (fetch_model app_id app_name ts oracle,
        (metric_paths.filter fun p => raised_b (oracle p)).map
          fun p => failed_log p app_name) := by
  unfold get_application_metrics fetch_model
  rw [fetch_loop_eq]

/-- `apply_error_pct` only touches `error_percentage`. -/
theorem apply_error_pct_fields (m : MetricsData) :
    (apply_error_pct m).application_name = m.application_name ∧
    (apply_error_pct m).application_id = m.application_id ∧
    (apply_error_pct m).calls_per_minute = m.calls_per_minute ∧
    (apply_error_pct m).average_response_time = m.average_response_time ∧
    (apply_error_pct m).errors_per_minute = m.errors_per_minute ∧
    (apply_error_pct m).health_status = m.health_status ∧
    (apply_error_pct m).timestamp = m.timestamp := by
  unfold apply_error_pct
  split <;> simp

/-- The `error_percentage` `apply_error_pct` leaves behind. -/
theorem apply_error_pct_pct (m : MetricsData) :
    (apply_error_pct m).error_percentage =
      if m.calls_per_minute > 0 then
        pyRound2 (m.errors_per_minute / m.calls_per_minute * 100)
      else m.error_percentage := by
  unfold apply_error_pct
  split <;> simp_all

/-- `apply_health` only touches `health_status`, storing the classifier's
value for the record. -/
theorem apply_health_fields (m : MetricsData) :
    (apply_health m).application_name = m.application_name ∧
    (apply_health m).application_id = m.application_id ∧
    (apply_health m).calls_per_minute = m.calls_per_minute ∧
    (apply_health m).average_response_time = m.average_response_time ∧
    (apply_health m).errors_per_minute = m.errors_per_minute ∧
    (apply_health m).error_percentage = m.error_percentage ∧
    (apply_health m).timestamp = m.timestamp ∧
    (apply_health m).health_status = determine_health_status m := by
  unfold apply_health
  simp

/-- Classifying after `apply_health` agrees with the stored label. -/
theorem apply_health_fixed (m : MetricsData) :
    (apply_health m).health_status = determine_health_status (apply_health m) := by
  unfold apply_health
  exact determine_health_status_congr m _ rfl rfl rfl

/-- Identity fields of a fetched record: name, id and timestamp come straight
from the arguments. -/
theorem fetch_identity_fields (app_id : Int) (app_name ts : String)
    (oracle : String → QueryOutcome) :
    (get_application_metrics app_id app_name ts oracle).1.application_id = app_id ∧
    (get_application_metrics app_id app_name ts oracle).1.application_name = app_name ∧
    (get_application_metrics app_id app_name ts oracle).1.timestamp = ts := by
  rw [get_application_metrics_eq]
  refine ⟨?_, ?_, ?_⟩ <;>
    simp [fetch_model, apply_health_fields, apply_error_pct_fields, loop_model]

/-- A fetch whose three queries all raise yields the zero-valued,
`"No Traffic"`-classified record. -/
theorem fetch_all_raised (app_id : Int) (app_name ts : String)
    (oracle : String → QueryOutcome)
    (h : ∀ p ∈ metric_paths, oracle p = QueryOutcome.raised) :
    (get_application_metrics app_id app_name ts oracle).1 = zero_sample ⟨app_id, app_name⟩ ts := by
  have h0 : oracle "Application Infrastructure Performance|*|Calls per Minute" =
      QueryOutcome.raised := h _ (by simp [metric_paths])
  have h1 : oracle "Application Infrastructure Performance|*|Average Response Time (ms)" =
      QueryOutcome.raised := h _ (by simp [metric_paths])
  have h2 : oracle "Application Infrastructure Performance|*|Errors per Minute" =
      QueryOutcome.raised := h _ (by simp [metric_paths])
  have hb : loop_model app_id app_name ts oracle =
      { application_name := app_name, application_id := app_id, calls_per_minute := 0,
        average_response_time := 0, errors_per_minute := 0, error_percentage := 0,
        health_status := "Unknown", timestamp := ts } := by
    simp [loop_model, metric_paths, h0, h1, h2, path_field_value]
  rw [get_application_metrics_eq]
  show fetch_model app_id app_name ts oracle = _
  unfold fetch_model
  rw [hb]
  norm_num [apply_error_pct, apply_health, determine_health_status, zero_sample]

/-- C1: the health classifier is a total deterministic function of
(`error_percentage`, `average_response_time`, `calls_per_minute`): it returns
exactly one of the four labels, decided by the first matching rule
(`error_percentage > 5 ∨ average_response_time > 5000` gives Critical, else
`error_percentage > 1 ∨ average_response_time > 2000` gives Warning, else
`calls_per_minute > 0` gives Healthy, else No Traffic), and on the four quoted
inputs it yields No Traffic, Warning, Critical and Healthy respectively. -/
theorem health_classifier_spec_C1 :
    (∀ m : MetricsData,
      determine_health_status m ∈ ["Critical", "Warning", "Healthy", "No Traffic"]) ∧
    (∀ m : MetricsData,
      (m.error_percentage > 5 ∨ m.average_response_time > 5000) →
      determine_health_status m = "Critical") ∧
    (∀ m : MetricsData,
      ¬(m.error_percentage > 5 ∨ m.average_response_time > 5000) →
      (m.error_percentage > 1 ∨ m.average_response_time > 2000) →
      determine_health_status m = "Warning") ∧
    (∀ m : MetricsData,
      ¬(m.error_percentage > 5 ∨ m.average_response_time > 5000) →
      ¬(m.error_percentage > 1 ∨ m.average_response_time > 2000) →
      m.calls_per_minute > 0 →
      determine_health_status m = "Healthy") ∧
    (∀ m : MetricsData,
      ¬(m.error_percentage > 5 ∨ m.average_response_time > 5000) →
      ¬(m.error_percentage > 1 ∨ m.average_response_time > 2000) →
      ¬(m.calls_per_minute > 0) →
      determine_health_status m = "No Traffic") ∧
    (∀ m m2 : MetricsData,
      m.error_percentage = m2.error_percentage →
      m.average_response_time = m2.average_response_time →
      m.calls_per_minute = m2.calls_per_minute →
      determine_health_status m = determine_health_status m2) ∧
    determine_health_status (sample_of 0 0 0) = "No Traffic" ∧
    determine_health_status (sample_of 2 100 50) = "Warning" ∧
    determine_health_status (sample_of 6 100 50) = "Critical" ∧
    determine_health_status (sample_of 0 100 50) = "Healthy" := by
  refine ⟨?_, ?_, ?_, ?_, ?_, ?_, ?_, ?_, ?_, ?_⟩
  · intro m
    unfold determine_health_status
    split_ifs <;> simp
  · intro m h
    simp [determine_health_status, h]
  · intro m h h2
    simp [determine_health_status, h, h2]
  · intro m h h2 h3
    simp [determine_health_status, h, h2, h3]
  · intro m h h2 h3
    simp [determine_health_status, h, h2, h3]
  · intro m m2 he ha hc
    exact determine_health_status_congr m m2 he ha hc
  · norm_num [determine_health_status, sample_of]
  · norm_num [determine_health_status, sample_of]
  · norm_num [determine_health_status, sample_of]
  · norm_num [determine_health_status, sample_of]

/-- C3: in every record the fetcher produces, `error_percentage` is the
2-decimal rounding of `errors_per_minute / calls_per_minute * 100` when
`calls_per_minute > 0` and is 0 otherwise. -/
theorem error_percentage_spec_C3 :
    ∀ (app_id : Int) (app_name ts : String) (oracle : String → QueryOutcome),
      (get_application_metrics app_id app_name ts oracle).1.error_percentage =
        if (get_application_metrics app_id app_name ts oracle).1.calls_per_minute > 0 then
          pyRound2 ((get_application_metrics app_id app_name ts oracle).1.errors_per_minute /
            (get_application_metrics app_id app_name ts oracle).1.calls_per_minute * 100)
        else 0 := by
  intro app_id app_name ts oracle
  rw [get_application_metrics_eq]
  simp only [fetch_model, apply_health_fields, apply_error_pct_pct, apply_error_pct_fields]
  simp [loop_model]

/-- C8: the three metric paths are queried independently: each raw field is a
function of its own path's outcome alone; a raised query leaves its field at
the default 0 and is logged, while the other paths' values still land in the
record; and the fetch still produces one classified record.  The last two
conjuncts exhibit this on a fetch whose response-time query raises while the
other two return 200 with value 10. -/
theorem metric_path_independence_C8 :
    ∀ (app_id : Int) (app_name ts : String) (oracle : String → QueryOutcome),
      (get_application_metrics app_id app_name ts oracle).1.calls_per_minute =
        path_field_value (oracle (metric_paths.getD 0 "")) ∧
      (get_application_metrics app_id app_name ts oracle).1.average_response_time =
        path_field_value (oracle (metric_paths.getD 1 "")) ∧
      (get_application_metrics app_id app_name ts oracle).1.errors_per_minute =
        path_field_value (oracle (metric_paths.getD 2 "")) ∧
      (oracle (metric_paths.getD 0 "") = QueryOutcome.raised →
        (get_application_metrics app_id app_name ts oracle).1.calls_per_minute = 0) ∧
      (oracle (metric_paths.getD 1 "") = QueryOutcome.raised →
        (get_application_metrics app_id app_name ts oracle).1.average_response_time = 0) ∧
      (oracle (metric_paths.getD 2 "") = QueryOutcome.raised →
        (get_application_metrics app_id app_name ts oracle).1.errors_per_minute = 0) ∧
      (∀ p ∈ metric_paths, oracle p = QueryOutcome.raised →
        failed_log p app_name ∈ (get_application_metrics app_id app_name ts oracle).2) ∧
      (get_application_metrics app_id app_name ts oracle).1.health_status =
        determine_health_status (get_application_metrics app_id app_name ts oracle).1 := by
  intro app_id app_name ts oracle
  have hcalls : (get_application_metrics app_id app_name ts oracle).1.calls_per_minute =
      path_field_value (oracle (metric_paths.getD 0 "")) := by
    rw [get_application_metrics_eq]
    simp [fetch_model, apply_health_fields, apply_error_pct_fields, loop_model]
  have hart : (get_application_metrics app_id app_name ts oracle).1.average_response_time =
      path_field_value (oracle (metric_paths.getD 1 "")) := by
    rw [get_application_metrics_eq]
    simp [fetch_model, apply_health_fields, apply_error_pct_fields, loop_model]
  have herr : (get_application_metrics app_id app_name ts oracle).1.errors_per_minute =
      path_field_value (oracle (metric_paths.getD 2 "")) := by
    rw [get_application_metrics_eq]
    simp [fetch_model, apply_health_fields, apply_error_pct_fields, loop_model]
  refine ⟨hcalls, hart, herr, ?_, ?_, ?_, ?_, ?_⟩
  · intro hr
    rw [hcalls, hr]
    rfl
  · intro hr
    rw [hart, hr]
    rfl
  · intro hr
    rw [herr, hr]
    rfl
  · intro p hp hr
    rw [get_application_metrics_eq]
    exact List.mem_map_of_mem _ (List.mem_filter.mpr ⟨hp, by simp [raised_b, hr]⟩)
  · rw [get_application_metrics_eq]
    exact apply_health_fixed (apply_error_pct (loop_model app_id app_name ts oracle))

/-- C8, exhibited: a fetch whose response-time query raises while the calls
and errors queries return 200 with latest value 10 keeps the response time at
0 yet still records the other two metrics. -/
theorem metric_path_default_example_C8aux :
    (get_application_metrics 7 "App" "t"
      (fun p =>
        if p = "Application Infrastructure Performance|*|Average Response Time (ms)" then
          QueryOutcome.raised
        else QueryOutcome.response 200 [[(10 : ℚ)]])).1.average_response_time = 0 ∧
    (get_application_metrics 7 "App" "t"
      (fun p =>
        if p = "Application Infrastructure Performance|*|Average Response Time (ms)" then
          QueryOutcome.raised
        else QueryOutcome.response 200 [[(10 : ℚ)]])).1.calls_per_minute = 10 ∧
    (get_application_metrics 7 "App" "t"
      (fun p =>
        if p = "Application Infrastructure Performance|*|Average Response Time (ms)" then
          QueryOutcome.raised
        else QueryOutcome.response 200 [[(10 : ℚ)]])).1.errors_per_minute = 10 := by
  have hne1 : "Application Infrastructure Performance|*|Calls per Minute" ≠
      "Application Infrastructure Performance|*|Average Response Time (ms)" := by decide
  have hne2 : "Application Infrastructure Performance|*|Errors per Minute" ≠
      "Application Infrastructure Performance|*|Average Response Time (ms)" := by decide
  rw [get_application_metrics_eq]
  refine ⟨?_, ?_, ?_⟩ <;>
    norm_num [fetch_model, apply_health_fields, apply_error_pct_fields, loop_model,
      metric_paths, path_field_value, latest_rounded, pyRound2, hne1, hne2]

/-- C2: the collector returns exactly one record per application, in a
one-to-one correspondence (same ids and names, in order), and an application
whose fetch fails entirely still contributes a zero-valued record instead of
being dropped; the last conjunct exhibits a 2-application collection whose
every query raises and which still returns both (zero-valued) records. -/
theorem bounded_collector_spec_C2 :
    ∀ (apps : List AppEntry) (ts : String) (oracle : AppEntry → String → QueryOutcome),
      (collect_metrics_threaded apps ts oracle).length = apps.length ∧
      (collect_metrics_threaded apps ts oracle).map
          (fun m => (m.application_id, m.application_name)) =
        apps.map (fun a => (a.id, a.name)) ∧
      (∀ app ∈ apps,
        (∀ p ∈ metric_paths, oracle app p = QueryOutcome.raised) →
        zero_sample app ts ∈ collect_metrics_threaded apps ts oracle) ∧
      collect_metrics_threaded [⟨1, "A"⟩, ⟨2, "B"⟩] "t" (fun _ _ => QueryOutcome.raised) =
        [zero_sample ⟨1, "A"⟩ "t", zero_sample ⟨2, "B"⟩ "t"] := by
  intro apps ts oracle
  refine ⟨?_, ?_, ?_, ?_⟩
  · simp [collect_metrics_threaded]
  · simp only [collect_metrics_threaded, List.map_map]
    apply List.map_congr_left
    intro app _
    have h := fetch_identity_fields app.id app.name ts (oracle app)
    simp [Function.comp, h.1, h.2.1]
  · intro app happ hall
    have h := fetch_all_raised app.id app.name ts (oracle app) hall
    exact List.mem_map.mpr ⟨app, happ, h⟩
  · have hA := fetch_all_raised 1 "A" "t" (fun _ => QueryOutcome.raised) (fun _ _ => rfl)
    have hB := fetch_all_raised 2 "B" "t" (fun _ => QueryOutcome.raised) (fun _ _ => rfl)
    simp [collect_metrics_threaded, hA, hB]

/-- C4 counterexample: the first demo record (`User-Service`) carries
`health_status = "Healthy"`, yet the health classifier applied to its own
fields (`error_percentage = 1.77`, `average_response_time = 120.5`,
`calls_per_minute = 45.3`) yields `"Warning"`: `health_status` is not always
the classifier's value. -/
theorem demo_health_mismatch_C4 :
    determine_health_status
        ((generate_demo_metrics "t").getD 0 (init_metrics 0 "" "")) = "Warning" ∧
    ((generate_demo_metrics "t").getD 0 (init_metrics 0 "" "")).health_status = "Healthy" := by
  constructor
  · norm_num [generate_demo_metrics, determine_health_status]
  · norm_num [generate_demo_metrics]

/-- C4 (amended): every record the metrics fetcher produces carries
`health_status` equal to the classifier applied to that record's own fields;
the demo generator instead hard-codes `health_status`, agreeing with the
classifier on its Product-Service, Cart-Service and API-Gateway entries but
disagreeing on User-Service, Order-Service and Frontend-Service. -/
theorem health_status_invariant_amended_C4 :
    (∀ (app_id : Int) (app_name ts : String) (oracle : String → QueryOutcome),
      (get_application_metrics app_id app_name ts oracle).1.health_status =
        determine_health_status (get_application_metrics app_id app_name ts oracle).1) ∧
    (∀ ts : String,
      determine_health_status ((generate_demo_metrics ts).getD 1 (init_metrics 0 "" "")) =
        ((generate_demo_metrics ts).getD 1 (init_metrics 0 "" "")).health_status ∧
      determine_health_status ((generate_demo_metrics ts).getD 2 (init_metrics 0 "" "")) =
        ((generate_demo_metrics ts).getD 2 (init_metrics 0 "" "")).health_status ∧
      determine_health_status ((generate_demo_metrics ts).getD 4 (init_metrics 0 "" "")) =
        ((generate_demo_metrics ts).getD 4 (init_metrics 0 "" "")).health_status) ∧
    (∀ ts : String,
      determine_health_status ((generate_demo_metrics ts).getD 0 (init_metrics 0 "" "")) ≠
        ((generate_demo_metrics ts).getD 0 (init_metrics 0 "" "")).health_status ∧
      determine_health_status ((generate_demo_metrics ts).getD 3 (init_metrics 0 "" "")) ≠
        ((generate_demo_metrics ts).getD 3 (init_metrics 0 "" "")).health_status ∧
      determine_health_status ((generate_demo_metrics ts).getD 5 (init_metrics 0 "" "")) ≠
        ((generate_demo_metrics ts).getD 5 (init_metrics 0 "" "")).health_status) := by
  refine ⟨?_, ?_, ?_⟩
  · intro app_id app_name ts oracle
    rw [get_application_metrics_eq]
    exact apply_health_fixed (apply_error_pct (loop_model app_id app_name ts oracle))
  · intro ts
    refine ⟨?_, ?_, ?_⟩ <;> norm_num [generate_demo_metrics, determine_health_status]
  · intro ts
    refine ⟨?_, ?_, ?_⟩ <;> norm_num [generate_demo_metrics, determine_health_status] <;> decide

/-! ## Lemmas and claims about the journey simulator -/

/-- C9: the journey table is exactly the 5 fixed named patterns with weights
40, 25, 20, 10, 5 summing to 100, and every outcome of the randomness source
selects the step sequence of exactly one of those patterns. -/
theorem journey_picker_spec_C9 :
    JOURNEY_PATTERNS.length = 5 ∧
    JOURNEY_PATTERNS.map (fun e => e.1) =
      ["browser", "quick_shopper", "comparison_shopper", "returning_user", "cart_abandoner"] ∧
    JOURNEY_PATTERNS.map (fun e => e.2.1) = [40, 25, 20, 10, 5] ∧
    (JOURNEY_PATTERNS.map (fun e => e.2.1)).sum = 100 ∧
    (∀ r : Nat, get_random_journey r ∈ JOURNEY_PATTERNS.map (fun e => e.2.2)) := by
  refine ⟨rfl, rfl, rfl, rfl, ?_⟩
  intro r
  unfold get_random_journey
  simp only [JOURNEY_PATTERNS, pick_weighted, List.map]
  split_ifs <;> simp_all
  omega

/-- `view_product` always issues exactly its one GET; it never touches the
cart and can only append the drawn product id to `viewed_products`. -/
theorem view_product_spec (env : Env) (s : SessionData) :
    (view_product env s).calls =
      [Request.get ("/product-service/api/products/" ++ toString (1 + env.seedA % 100))] ∧
    ((view_product env s).state.viewed_products = s.viewed_products ∨
      (view_product env s).state.viewed_products =
        s.viewed_products ++ [1 + env.seedA % 100]) ∧
    (view_product env s).state.cart_items = s.cart_items ∧
    (view_product env s).state.session_start = s.session_start ∧
    (view_product env s).state.auth_token = s.auth_token := by
  unfold view_product
  cases h : env.status
      (Request.get ("/product-service/api/products/" ++ toString (1 + env.seedA % 100))) <;>
    simp [h]
  split_ifs <;> simp

/-- C5: a cart POST is never issued while `viewed_products` is empty: when
`add_to_cart` starts with no viewed products it first executes
`view_product` (its GET is the first call issued), and whenever the cart POST
is among the issued calls the resulting state's `viewed_products` (which the
POST branch never modifies, so it equals the list at POST time) is non-empty.
The last conjunct exhibits a full run from an empty session against an
all-200 client: the product GET precedes the cart POST. -/
theorem add_to_cart_guard_C5 :
    (∀ (env : Env) (s : SessionData), s.viewed_products = [] →
      (add_to_cart env s).calls.head? = (view_product env s).calls.head?) ∧
    (∀ (env : Env) (s : SessionData) (pid q : Nat),
      Request.post "/cart-service/api/cart/add" (ReqBody.cartAdd pid q) ∈
        (add_to_cart env s).calls →
      (add_to_cart env s).state.viewed_products ≠ []) ∧
    add_to_cart ⟨fun _ => some 200, some 200, some (some "tok"), true, 0, 0, 0⟩
        ⟨[], [], 0, none⟩ =
      ⟨⟨[⟨1, 1⟩], [1], 0, none⟩,
        [Request.get "/product-service/api/products/1",
         Request.post "/cart-service/api/cart/add" (ReqBody.cartAdd 1 1)],
        [], false⟩ := by
  refine ⟨?_, ?_, ?_⟩
  · intro env s hvp
    have hc := (view_product_spec env s).1
    rcases hv : view_product env s with ⟨vst, vcalls, vattrs, vraised⟩
    rw [hv] at hc
    simp only at hc
    simp only [add_to_cart, hvp, List.isEmpty_nil, if_true, hv]
    cases vraised
    · by_cases hse : vst.viewed_products.isEmpty
      · simp [hse]
      · simp only [Bool.false_eq_true, if_false, hse]
        cases h2 : env.status (Request.post "/cart-service/api/cart/add"
            (ReqBody.cartAdd
              (vst.viewed_products.getD (env.seedB % vst.viewed_products.length) 0)
              (1 + env.seedC % 3))) <;>
          simp [h2, hc]
        split_ifs <;> simp [hc]
    · simp
  · intro env s pid q hmem
    by_cases hvp : s.viewed_products.isEmpty
    · have hc := (view_product_spec env s).1
      rcases hv : view_product env s with ⟨vst, vcalls, vattrs, vraised⟩
      rw [hv] at hc
      simp only at hc
      simp only [add_to_cart, hvp, if_true, hv] at hmem ⊢
      cases vraised
      · by_cases hse : vst.viewed_products.isEmpty
        · simp [hse, hc] at hmem
        · simp only [Bool.false_eq_true, if_false, hse] at hmem ⊢
          have hne : vst.viewed_products ≠ [] := by
            simpa [List.isEmpty_iff] using hse
          cases h2 : env.status (Request.post "/cart-service/api/cart/add"
              (ReqBody.cartAdd
                (vst.viewed_products.getD (env.seedB % vst.viewed_products.length) 0)
                (1 + env.seedC % 3))) <;>
            simp [h2, hne]
          split_ifs <;> simp [hne]
      · simp [hc] at hmem
    · have hne : s.viewed_products ≠ [] := by
        simpa [List.isEmpty_iff] using hvp
      simp only [add_to_cart, hvp, if_false] at hmem ⊢
      simp only [Bool.false_eq_true, if_false]
      cases h2 : env.status (Request.post "/cart-service/api/cart/add"
          (ReqBody.cartAdd
            (s.viewed_products.getD (env.seedB % s.viewed_products.length) 0)
            (1 + env.seedC % 3))) <;>
        simp [h2, hne]
      split_ifs <;> simp [hne]
  · rfl

/-- C6: `checkout` with an empty cart issues no HTTP call, marks the span
attributes `checkout.abandoned = True`, `checkout.reason = empty_cart`, and
returns with the session state unchanged; with a non-empty cart it issues
exactly the checkout POST, and `cart_items` ends empty exactly when the
response status is 200 or 201 — on any other status, or when the call raises,
the whole session state is unchanged, and `viewed_products`, `session_start`
and `auth_token` are untouched in every case. -/
theorem checkout_spec_C6 :
    (∀ (env : Env) (s : SessionData), s.cart_items = [] →
      (checkout env s).calls = [] ∧
      (checkout env s).attrs =
        [("checkout.abandoned", "True"), ("checkout.reason", "empty_cart")] ∧
      (checkout env s).state = s ∧
      (checkout env s).raised = false) ∧
    (∀ (env : Env) (s : SessionData), s.cart_items ≠ [] →
      (checkout env s).calls =
        [Request.post "/order-service/api/orders/checkout" ReqBody.checkoutInfo] ∧
      ((checkout env s).state.cart_items = [] ↔
        (env.status (Request.post "/order-service/api/orders/checkout" ReqBody.checkoutInfo) =
            some 200 ∨
          env.status (Request.post "/order-service/api/orders/checkout" ReqBody.checkoutInfo) =
            some 201)) ∧
      (∀ code : Nat,
        env.status (Request.post "/order-service/api/orders/checkout" ReqBody.checkoutInfo) =
          some code →
        ¬(code = 200 ∨ code = 201) → (checkout env s).state = s) ∧
      (env.status (Request.post "/order-service/api/orders/checkout" ReqBody.checkoutInfo) =
          none →
        (checkout env s).state = s) ∧
      (checkout env s).state.viewed_products = s.viewed_products ∧
      (checkout env s).state.session_start = s.session_start ∧
      (checkout env s).state.auth_token = s.auth_token) := by
  constructor
  · intro env s h
    simp [checkout, h]
  · intro env s h
    have hne : s.cart_items.isEmpty = false := by
      simpa [List.isEmpty_iff] using h
    simp only [checkout, hne, Bool.false_eq_true, if_false]
    cases h2 : env.status (Request.post "/order-service/api/orders/checkout"
        ReqBody.checkoutInfo) with
    | none => simp [h]
    | some code =>
      by_cases hcc : code = 200 ∨ code = 201
      · simp [hcc]
        intro hc1 hc2
        rcases hcc with h200 | h201
        · exact absurd h200 hc1
        · exact absurd h201 hc2
      · simp [h, hcc]

/-- The step loop of a journey: the attempted steps are an initial segment of
the journey; only the last attempted step can have raised, and when one
raised the exception is recorded on the journey span; with no exception every
step of the journey was attempted. -/
theorem run_steps_spec (profile : UserProfile) (envs : Nat → Env) :
    ∀ (journey : List String) (i : Nat) (s : SessionData),
      (run_steps profile envs journey i s).attempted.map Prod.fst =
        journey.take (run_steps profile envs journey i s).attempted.length ∧
      (∀ st : String × Bool,
        st ∈ (run_steps profile envs journey i s).attempted → st.2 = true →
        (run_steps profile envs journey i s).attempted.getLast? = some st ∧
        (run_steps profile envs journey i s).exception_recorded = true) ∧
      ((run_steps profile envs journey i s).exception_recorded = false →
        (run_steps profile envs journey i s).attempted.map Prod.fst = journey) := by
  intro journey
  induction journey with
  | nil => intro i s; simp [run_steps]
  | cons step rest ih =>
    intro i s
    by_cases hr : (execute_step profile (envs i) step s).raised
    · refine ⟨?_, ?_, ?_⟩ <;> simp [run_steps, hr]
    · obtain ⟨ih1, ih2, ih3⟩ := ih (i + 1) (execute_step profile (envs i) step s).state
      refine ⟨?_, ?_, ?_⟩
      · simp [run_steps, hr, ih1]
      · intro st hst h2
        simp only [run_steps, hr, Bool.false_eq_true, if_false] at hst ⊢
        simp only [List.mem_cons] at hst
        rcases hst with rfl | hst
        · simp at h2
        · obtain ⟨hlast, hrec⟩ := ih2 st hst h2
          have hne : (run_steps profile envs rest (i + 1)
              (execute_step profile (envs i) step s).state).attempted ≠ [] := by
            intro hnil
            rw [hnil] at hst
            simp at hst
          cases htl : (run_steps profile envs rest (i + 1)
              (execute_step profile (envs i) step s).state).attempted with
          | nil => exact absurd htl hne
          | cons b l =>
            rw [htl] at hlast
            simp [List.getLast?_cons_cons, hlast, hrec]
      · intro hrec
        simp only [run_steps, hr, Bool.false_eq_true, if_false] at hrec ⊢
        simp [ih3 hrec]

/-- The session loop always performs every scheduled journey execution. -/
theorem run_session_count (profile : UserProfile) :
    ∀ (sched : List (List String × (Nat → Env))) (s : SessionData),
      (run_session profile sched s).2 = sched.length := by
  intro sched
  induction sched with
  | nil => intro s; rfl
  | cons j rest ih =>
    intro s
    obtain ⟨journey, envs⟩ := j
    simp [run_session, ih]

/-- C7: a step that raises aborts the remaining steps of its journey — the
attempted steps are an initial segment of the journey and a raising step is
the last one attempted — the exception is recorded on the journey span, and
the journey executor itself returns normally, so a session runs every one of
its scheduled journey executions; with no exception the whole journey runs. -/
theorem journey_failure_spec_C7 :
    (∀ (profile : UserProfile) (envs : Nat → Env) (journey : List String) (s : SessionData),
      (execute_user_journey profile envs journey s).attempted.map Prod.fst =
        journey.take (execute_user_journey profile envs journey s).attempted.length ∧
      (∀ st : String × Bool,
        st ∈ (execute_user_journey profile envs journey s).attempted → st.2 = true →
        (execute_user_journey profile envs journey s).attempted.getLast? = some st ∧
        (execute_user_journey profile envs journey s).exception_recorded = true) ∧
      ((execute_user_journey profile envs journey s).exception_recorded = false →
        (execute_user_journey profile envs journey s).attempted.map Prod.fst = journey)) ∧
    (∀ (profile : UserProfile) (sched : List (List String × (Nat → Env))) (s : SessionData),
      (run_session profile sched s).2 = sched.length) := by
  constructor
  · intro profile envs journey s
    exact run_steps_spec profile envs journey 0 s
  · exact run_session_count

/-- `List.getD` at an in-range index is an element of the list. -/
theorem getD_mem_of_lt (l : List Nat) (i d : Nat) (h : i < l.length) : l.getD i d ∈ l := by
  induction l generalizing i with
  | nil => simp at h
  | cons a t ih =>
    cases i with
    | zero => simp
    | succ j =>
      rw [List.getD_cons_succ]
      exact List.mem_cons_of_mem _ (ih j (by simpa using h))

/-- `visit_homepage` leaves the session state untouched. -/
theorem visit_homepage_state (env : Env) (s : SessionData) :
    (visit_homepage env s).state = s := by
  unfold visit_homepage
  split <;> rfl

/-- `browse_products` leaves the session state untouched. -/
theorem browse_products_state (profile : UserProfile) (env : Env) (s : SessionData) :
    (browse_products profile env s).state = s := by
  simp only [browse_products]
  split <;> rfl

/-- `search_products` leaves the session state untouched. -/
theorem search_products_state (env : Env) (s : SessionData) :
    (search_products env s).state = s := by
  simp only [search_products]
  split <;> rfl

/-- `view_cart` leaves the session state untouched. -/
theorem view_cart_state (env : Env) (s : SessionData) :
    (view_cart env s).state = s := by
  unfold view_cart
  split <;> rfl

/-- `view_orders` leaves the session state untouched. -/
theorem view_orders_state (env : Env) (s : SessionData) :
    (view_orders env s).state = s := by
  unfold view_orders
  split <;> rfl

/-- `store_token` touches only `auth_token`. -/
theorem store_token_fields (env : Env) (s : SessionData) (code : Nat) :
    (store_token env s code).cart_items = s.cart_items ∧
    (store_token env s code).viewed_products = s.viewed_products := by
  unfold store_token
  by_cases h : code = 200 <;> simp [h]
  cases env.token_json <;> simp

/-- `login_user` touches neither the cart nor the viewed products. -/
theorem login_state_fields (profile : UserProfile) (env : Env) (s : SessionData) :
    (login_user profile env s).state.cart_items = s.cart_items ∧
    (login_user profile env s).state.viewed_products = s.viewed_products := by
  unfold login_user register_user
  cases h : env.status (Request.post "/user-service/api/users/login"
      (ReqBody.loginCreds profile.email)) with
  | none => simp [h]
  | some code0 =>
    by_cases h401 : code0 = 401
    · cases h2 : env.status (Request.post "/user-service/api/users/register"
          (ReqBody.registerInfo profile.email)) with
      | none => simp [h, h2, h401]
      | some v =>
        cases hr : env.retry_status with
        | none => simp [h, h2, hr, h401]
        | some code1 => simp [h, h2, hr, h401, store_token_fields]
    · simp [h, h401, store_token_fields]

/-- `add_to_cart` either leaves `cart_items` unchanged or appends exactly one
entry whose quantity is in `[1, 3]` and whose product id belongs to the
resulting `viewed_products`; the starting `viewed_products` always survive
into the result. -/
theorem add_to_cart_shape (env : Env) (s : SessionData) :
    (∀ x ∈ s.viewed_products, x ∈ (add_to_cart env s).state.viewed_products) ∧
    ((add_to_cart env s).state.cart_items = s.cart_items ∨
      ∃ pid q : Nat,
        (add_to_cart env s).state.cart_items = s.cart_items ++ [⟨pid, q⟩] ∧
        1 ≤ q ∧ q ≤ 3 ∧ pid ∈ (add_to_cart env s).state.viewed_products) := by
  have hq1 : 1 ≤ 1 + env.seedC % 3 := by omega
  have hq3 : 1 + env.seedC % 3 ≤ 3 := by
    have := Nat.mod_lt env.seedC (y := 3) (by omega)
    omega
  by_cases hvp : s.viewed_products.isEmpty
  · have hvnil : s.viewed_products = [] := by simpa [List.isEmpty_iff] using hvp
    obtain ⟨-, hview, hcart, -, -⟩ := view_product_spec env s
    rcases hv : view_product env s with ⟨vst, vcalls, vattrs, vraised⟩
    rw [hv] at hview hcart
    simp only at hview hcart
    simp only [add_to_cart, hvp, if_true, hv]
    cases vraised
    · by_cases hse : vst.viewed_products.isEmpty
      · simp only [hse, if_true, Bool.false_eq_true, if_false]
        exact ⟨fun x hx => by simp [hvnil] at hx, Or.inl hcart⟩
      · have hne : vst.viewed_products ≠ [] := by simpa [List.isEmpty_iff] using hse
        have hlen : env.seedB % vst.viewed_products.length < vst.viewed_products.length :=
          Nat.mod_lt _ (List.length_pos.mpr hne)
        have hmem := getD_mem_of_lt vst.viewed_products
          (env.seedB % vst.viewed_products.length) 0 hlen
        simp only [hse, Bool.false_eq_true, if_false]
        cases h2 : env.status (Request.post "/cart-service/api/cart/add"
            (ReqBody.cartAdd
              (vst.viewed_products.getD (env.seedB % vst.viewed_products.length) 0)
              (1 + env.seedC % 3))) with
        | none => exact ⟨fun x hx => by simp [hvnil] at hx, Or.inl hcart⟩
        | some code =>
          by_cases hcc : code = 200 ∨ code = 201 <;> simp only [h2, hcc, if_true, if_false]
          · refine ⟨fun x hx => by simp [hvnil] at hx, Or.inr ?_⟩
            exact ⟨_, _, by simp [hcart], hq1, hq3, hmem⟩
          · exact ⟨fun x hx => by simp [hvnil] at hx, Or.inl hcart⟩
    · simp only [if_true]
      exact ⟨fun x hx => by simp [hvnil] at hx, Or.inl hcart⟩
  · have hne : s.viewed_products ≠ [] := by simpa [List.isEmpty_iff] using hvp
    have hlen : env.seedB % s.viewed_products.length < s.viewed_products.length :=
      Nat.mod_lt _ (List.length_pos.mpr hne)
    have hmem := getD_mem_of_lt s.viewed_products
      (env.seedB % s.viewed_products.length) 0 hlen
    simp only [add_to_cart, hvp, Bool.false_eq_true, if_false]
    cases h2 : env.status (Request.post "/cart-service/api/cart/add"
        (ReqBody.cartAdd
          (s.viewed_products.getD (env.seedB % s.viewed_products.length) 0)
          (1 + env.seedC % 3))) with
    | none => exact ⟨fun x hx => hx, Or.inl rfl⟩
    | some code =>
      by_cases hcc : code = 200 ∨ code = 201 <;> simp only [h2, hcc, if_true, if_false]
      · exact ⟨fun x hx => hx, Or.inr ⟨_, _, rfl, hq1, hq3, hmem⟩⟩
      · exact ⟨fun x hx => hx, Or.inl trivial⟩

/-- `checkout` never touches `viewed_products` and either keeps or clears the
cart. -/
theorem checkout_shape (env : Env) (s : SessionData) :
    (checkout env s).state.viewed_products = s.viewed_products ∧
    ((checkout env s).state.cart_items = s.cart_items ∨
      (checkout env s).state.cart_items = []) := by
  by_cases h : s.cart_items.isEmpty <;> simp only [checkout, h, if_true, Bool.false_eq_true,
    if_false]
  · simp
  · cases h2 : env.status (Request.post "/order-service/api/orders/checkout"
        ReqBody.checkoutInfo) with
    | none => simp
    | some code =>
      by_cases hcc : code = 200 ∨ code = 201 <;> simp only [hcc, if_true, if_false] <;> simp

set_option maxHeartbeats 1000000 in
/-- Every step handler preserves the viewed products already accumulated, and
changes `cart_items` only by keeping it, clearing it, or appending one entry
with quantity in `[1, 3]` and a viewed product id. -/
theorem execute_step_shape (profile : UserProfile) (env : Env) (step : String)
    (s : SessionData) :
    (∀ x ∈ s.viewed_products, x ∈ (execute_step profile env step s).state.viewed_products) ∧
    ((execute_step profile env step s).state.cart_items = s.cart_items ∨
      (execute_step profile env step s).state.cart_items = [] ∨
      ∃ pid q : Nat,
        (execute_step profile env step s).state.cart_items = s.cart_items ++ [⟨pid, q⟩] ∧
        1 ≤ q ∧ q ≤ 3 ∧ pid ∈ (execute_step profile env step s).state.viewed_products) := by
  unfold execute_step
  by_cases h1 : step = "homepage"
  · rw [if_pos h1, visit_homepage_state]
    exact ⟨fun _ hx => hx, Or.inl rfl⟩
  rw [if_neg h1]
  by_cases h2 : step = "login"
  · rw [if_pos h2]
    obtain ⟨hc, hv⟩ := login_state_fields profile env s
    exact ⟨fun x hx => by rw [hv]; exact hx, Or.inl hc⟩
  rw [if_neg h2]
  by_cases h3 : step = "browse_products"
  · rw [if_pos h3, browse_products_state]
    exact ⟨fun _ hx => hx, Or.inl rfl⟩
  rw [if_neg h3]
  by_cases h4 : step = "search_product"
  · rw [if_pos h4, search_products_state]
    exact ⟨fun _ hx => hx, Or.inl rfl⟩
  rw [if_neg h4]
  by_cases h5 : step = "view_product"
  · rw [if_pos h5]
    obtain ⟨-, hview, hcart, -, -⟩ := view_product_spec env s
    refine ⟨fun x hx => ?_, Or.inl hcart⟩
    rcases hview with hv | hv <;> rw [hv]
    · exact hx
    · exact List.mem_append_left _ hx
  rw [if_neg h5]
  by_cases h6 : step = "add_to_cart"
  · rw [if_pos h6]
    obtain ⟨hmono, hshape⟩ := add_to_cart_shape env s
    refine ⟨hmono, ?_⟩
    rcases hshape with hc | ⟨pid, q, hc, hq1, hq3, hm⟩
    · exact Or.inl hc
    · exact Or.inr (Or.inr ⟨pid, q, hc, hq1, hq3, hm⟩)
  rw [if_neg h6]
  by_cases h7 : step = "view_cart"
  · rw [if_pos h7, view_cart_state]
    exact ⟨fun _ hx => hx, Or.inl rfl⟩
  rw [if_neg h7]
  by_cases h8 : step = "checkout"
  · rw [if_pos h8]
    obtain ⟨hv, hc⟩ := checkout_shape env s
    refine ⟨fun x hx => by rw [hv]; exact hx, ?_⟩
    rcases hc with hc | hc
    · exact Or.inl hc
    · exact Or.inr (Or.inl hc)
  rw [if_neg h8]
  by_cases h9 : step = "view_orders"
  · rw [if_pos h9, view_orders_state]
    exact ⟨fun _ hx => hx, Or.inl rfl⟩
  rw [if_neg h9]
  by_cases h10 : step = "continue_shopping"
  · rw [if_pos h10, browse_products_state]
    exact ⟨fun _ hx => hx, Or.inl rfl⟩
  rw [if_neg h10]
  exact ⟨fun _ hx => hx, Or.inl rfl⟩

/-- Every step handler preserves the cart/viewed-products invariant. -/
theorem CartInv_execute_step (profile : UserProfile) (env : Env) (step : String)
    (s : SessionData) (h : CartInv s) : CartInv (execute_step profile env step s).state := by
  obtain ⟨hmono, hshape⟩ := execute_step_shape profile env step s
  intro it hit
  rcases hshape with hc | hc | ⟨pid, q, hc, hq1, hq3, hpid⟩
  · rw [hc] at hit
    obtain ⟨a, b, c⟩ := h it hit
    exact ⟨a, b, hmono _ c⟩
  · rw [hc] at hit
    simp at hit
  · rw [hc] at hit
    rcases List.mem_append.mp hit with hold | hnew
    · obtain ⟨a, b, c⟩ := h it hold
      exact ⟨a, b, hmono _ c⟩
    · simp only [List.mem_singleton] at hnew
      subst hnew
      exact ⟨hq1, hq3, hpid⟩

/-- The step loop of a journey preserves the cart invariant. -/
theorem CartInv_run_steps (profile : UserProfile) (envs : Nat → Env) :
    ∀ (journey : List String) (i : Nat) (s : SessionData),
      CartInv s → CartInv (run_steps profile envs journey i s).state := by
  intro journey
  induction journey with
  | nil => intro i s h; exact h
  | cons step rest ih =>
    intro i s h
    have hstep := CartInv_execute_step profile (envs i) step s h
    by_cases hr : (execute_step profile (envs i) step s).raised <;>
      simp only [run_steps, hr, if_true, Bool.false_eq_true, if_false]
    · exact hstep
    · exact ih (i + 1) _ hstep

/-- The session loop preserves the cart invariant. -/
theorem CartInv_run_session (profile : UserProfile) :
    ∀ (sched : List (List String × (Nat → Env))) (s : SessionData),
      CartInv s → CartInv (run_session profile sched s).1 := by
  intro sched
  induction sched with
  | nil => intro s h; exact h
  | cons j rest ih =>
    intro s h
    obtain ⟨journey, envs⟩ := j
    exact ih _ (CartInv_run_steps profile envs journey 0 s h)

/-- C10: an `add_to_cart` invocation appends at most one entry, and any entry
it appends has quantity in `[1, 3]` and a product id drawn from the viewed
products at append time (which survive into the resulting state); hence every
step preserves the invariant that each cart entry has quantity in `[1, 3]`
and a viewed product id, and the invariant holds at every point of a session
started from the empty session state. -/
theorem cart_items_invariant_C10 :
    (∀ (profile : UserProfile) (env : Env) (step : String) (s : SessionData),
      CartInv s → CartInv (execute_step profile env step s).state) ∧
    (∀ (env : Env) (s : SessionData),
      (add_to_cart env s).state.cart_items = s.cart_items ∨
      ∃ pid q : Nat,
        (add_to_cart env s).state.cart_items = s.cart_items ++ [⟨pid, q⟩] ∧
        1 ≤ q ∧ q ≤ 3 ∧ pid ∈ (add_to_cart env s).state.viewed_products) ∧
    (∀ (env : Env) (s : SessionData),
      (add_to_cart env s).state.cart_items.length ≤ s.cart_items.length + 1) ∧
    (∀ (profile : UserProfile) (sched : List (List String × (Nat → Env))) (start : Nat),
      CartInv (run_session profile sched (initial_session_data start)).1) := by
  refine ⟨CartInv_execute_step, fun env s => (add_to_cart_shape env s).2, ?_, ?_⟩
  · intro env s
    rcases (add_to_cart_shape env s).2 with hc | ⟨pid, q, hc, -, -, -⟩ <;> simp [hc]
  · intro profile sched start
    refine CartInv_run_session profile sched _ ?_
    intro it hit
    simp [initial_session_data] at hit
